import Mathlib

/-!
Shallow embedding of the ts-printer-monitor status-collection engine.

The repository holds two iterations of the scraping pipeline:
`src/core.py` (functions `fetch_best_status_html`, `parse_toner`, `parse_paper`,
`parse_explicit_errors`, `derive_fallback_errors`, `fetch_printer_status`,
`collect_all`) and `src/app.py` (the variant actually run by `run_all.py` and
`server.py`, whose `main` re-sequences results by task identity), plus the
HTML report renderer `src/app_html.py` (`build_html`, whose error section
suppresses "no paper" noise).

External libraries are not re-implemented; they enter as explicit parameters:
* HTTP traffic: each network call's result is an input (`FetchOutcome`,
  or the already-fetched page body handed to the parsing stage).
* BeautifulSoup: a `Dom` value carries exactly what the code reads from the
  parsed document (the body text, the toner icon `alt` per colorant row, and
  the `(icon code, label)` pairs of the `<tr>` rows containing a
  `pap_mXX.gif` icon).
* `json.loads`: a `jsonLoads` function parameter (`none` models
  `json.JSONDecodeError`).
* Thread scheduling: the order in which futures complete is an input list
  (`completion`), quantified over where a claim says "regardless of
  completion order".

Python dictionaries are ordered association lists (`SDict`); Python regular
expressions used by the code are re-implemented as executable scanners whose
semantics is derived from the concrete patterns in the source (leftmost
match, greedy / lazy quantifiers, and `re.findall` returning the capture
group when the pattern has one).
-/

set_option autoImplicit false

deriving instance DecidableEq for Except

namespace PrinterMonitor

/-! ### Python string primitives -/

/-- Python `str.lower()` (ASCII range, which covers every string the code
handles). -/
def lowerStr (s : String) : String := String.mk (s.toList.map Char.toLower)

/-- Python regex `\w` / `str` word characters (ASCII). -/
def isWordChar (c : Char) : Bool := c.isAlpha || c.isDigit || c == '_'

/-- Python regex `\s` / `str.strip` whitespace (ASCII). -/
def isSpaceChar (c : Char) : Bool :=
  c == ' ' || c == '\t' || c == '\n' || c == '\r' || c == '\x0b' || c == '\x0c'

/-- Does `needle` occur as a contiguous sublist of `hay`? -/
def listIn (needle : List Char) : List Char → Bool
  | [] => needle.isEmpty
  | c :: rest => needle.isPrefixOf (c :: rest) || listIn needle rest

/-- Python `needle in hay` on strings. -/
def strIn (needle hay : String) : Bool := listIn needle.toList hay.toList

/-- Python `s.startswith(pre)`. -/
def strStarts (s pre : String) : Bool := pre.toList.isPrefixOf s.toList

/-- Python `str.strip()`. -/
def stripStr (s : String) : String :=
  String.mk (((s.toList.dropWhile isSpaceChar).reverse.dropWhile isSpaceChar).reverse)

/-- Python `str.isdigit()` (ASCII digits). -/
def pyIsDigit (s : String) : Bool := !s.toList.isEmpty && s.toList.all Char.isDigit

/-- Numeric value of an all-digit string, `int(s)` for `s.isdigit()` strings. -/
def digitsToNat (s : String) : Nat :=
  s.toList.foldl (fun n c => 10 * n + (c.toNat - '0'.toNat)) 0

/-! ### Python `dict` with string keys and values, as an ordered association
list (insertion order preserved, keys unique in all dicts the code builds). -/

abbrev SDict := List (String × String)

/-- Python `d.get(k, dflt)`. -/
def dget (d : SDict) (k : String) (dflt : String) : String :=
  match d.find? (fun p => p.1 == k) with
  | some p => p.2
  | none => dflt

/-- Python `k in d`. -/
def dmem (d : SDict) (k : String) : Bool := d.any (fun p => p.1 == k)

/-- Python `d[k] = v`: replace the value at an existing key in place, else append. -/
def dset (d : SDict) (k v : String) : SDict :=
  if dmem d k then d.map (fun p => if p.1 == k then (k, v) else p) else d ++ [(k, v)]

/-- Python `list(d.keys())`. -/
def dkeys (d : SDict) : List String := d.map (fun p => p.1)

/-! ### Constants of core.py (lines 13-16) -/

def DRAWERS : List String :=
  ["Multi-Purpose Tray", "Drawer 1", "Drawer 2", "Drawer 3", "Drawer 4"]

def TONERS : List String := ["Cyan", "Magenta", "Yellow", "Black"]

/-- The four icon identifiers the regex `pap_m(00|04|07|10)\.gif` can capture. -/
inductive IconCode where
  | c00 | c04 | c07 | c10
deriving DecidableEq, Repr

/-- Source `ICON_MAP = {"00": "Empty", "04": "1 Bar", "07": "2 Bar", "10": "3 Bar"}`;
total because the regex only captures those four codes, so the
`ICON_MAP.get(..., "N/A")` default is unreachable. -/
def ICON_MAP : IconCode → String
  | .c00 => "Empty"
  | .c04 => "1 Bar"
  | .c07 => "2 Bar"
  | .c10 => "3 Bar"

/-- Source `BAR_MAP = {"0": "Empty", "1": "1 Bar", "2": "2 Bar", "3": "3 Bar"}`. -/
def BAR_MAP (s : String) : Option String :=
  if s == "0" then some "Empty"
  else if s == "1" then some "1 Bar"
  else if s == "2" then some "2 Bar"
  else if s == "3" then some "3 Bar"
  else none

/-- Model of `_dedupe_preserve` (core.py lines 21-26): keep first occurrences,
dropping falsy (empty) strings. -/
def _dedupe_preserve_go (seen : List String) : List String → List String
  | [] => []
  | x :: rest =>
    if x == "" || seen.contains x then _dedupe_preserve_go seen rest
    else x :: _dedupe_preserve_go (x :: seen) rest

def _dedupe_preserve (seq : List String) : List String := _dedupe_preserve_go [] seq

/-- Model of `_norm_tray_name` (core.py lines 28-34). -/
def _norm_tray_name (raw : String) : String :=
  let r := lowerStr raw
  if strIn "multi" r then "Multi-Purpose Tray"
  else if strIn "mp tray" r || strIn "mp-tray" r || strIn "bypass" r then "Multi-Purpose Tray"
  else if strIn "drawer 1" r || stripStr r == "1" then "Drawer 1"
  else if strIn "drawer 2" r || stripStr r == "2" then "Drawer 2"
  else if strIn "drawer 3" r || stripStr r == "3" then "Drawer 3"
  else if strIn "drawer 4" r || stripStr r == "4" then "Drawer 4"
  else stripStr raw

/-! ### Executable models of the concrete regular expressions in core.py

The scanners below implement, over `List Char`, exactly the patterns the
source uses, with Python `re` semantics (leftmost match; greedy and lazy
quantifiers resolved by backtracking, which for these concrete patterns
reduces to the deterministic scans implemented here). -/

/-- Consume the literal `pat` from the front of `l`, returning the rest. -/
def litMatch : List Char → List Char → Option (List Char)
  | [], l => some l
  | p :: ps, c :: cs => if c == p then litMatch ps cs else none
  | _ :: _, [] => none

/-- Is the next non-whitespace character a semicolon?  (The `\s*;` lookahead
of the lazy body in `extract_json_var`.) -/
def semiFollows (l : List Char) : Bool :=
  match l.dropWhile isSpaceChar with
  | ';' :: _ => true
  | _ => false

/-- The lazy group `[\{\[].*?[\}\]]` followed by `\s*;`: starting just after
the opening bracket (already in `acc`), take the shortest extension ending at
a closing bracket that is followed by `\s*;`. -/
def jsonBodyScan (acc : List Char) : List Char → Option (List Char)
  | [] => none
  | c :: rest =>
    if (c == '}' || c == ']') && semiFollows rest then some (acc ++ [c])
    else jsonBodyScan (acc ++ [c]) rest

/-- Match `var\s+NAME\s*=\s*([\{\[].*?[\}\]])\s*;` anchored at the head of
`l` (case-sensitive, as in the source, which passes no `re.I`), returning
the captured group. -/
def varHeadAt (name : List Char) (l : List Char) : Option (List Char) :=
  match litMatch ['v', 'a', 'r'] l with
  | none => none
  | some l1 =>
    match l1 with
    | [] => none
    | c :: cs =>
      if isSpaceChar c then
        match litMatch name (cs.dropWhile isSpaceChar) with
        | none => none
        | some l2 =>
          match litMatch ['='] (l2.dropWhile isSpaceChar) with
          | none => none
          | some l3 =>
            match l3.dropWhile isSpaceChar with
            | [] => none
            | c2 :: rest =>
              if c2 == '{' || c2 == '[' then jsonBodyScan [c2] rest else none
      else none

/-- Model of `re.search`: try the anchored match at each position, left to right. -/
def varScan (name : List Char) : List Char → Option (List Char)
  | [] => none
  | c :: rest =>
    match varHeadAt name (c :: rest) with
    | some g => some g
    | none => varScan name rest

/-- Model of `extract_json_var` (core.py lines 86-88). -/
def extract_json_var (name html : String) : Option String :=
  (varScan name.toList html.toList).map String.mk

/-- Match `"KEY"\s*:\s*"(\d+)"` anchored at the head of `l`, returning the
captured digits.  `\d+` is greedy; since a digit is never `"`, the match
succeeds exactly when the maximal digit run is nonempty and is immediately
followed by a closing quote, capturing the whole run. -/
def fieldAt (key : List Char) (l : List Char) : Option (List Char) :=
  match litMatch ('"' :: (key ++ ['"'])) l with
  | none => none
  | some l1 =>
    match litMatch [':'] (l1.dropWhile isSpaceChar) with
    | none => none
    | some l2 =>
      match litMatch ['"'] (l2.dropWhile isSpaceChar) with
      | none => none
      | some l3 =>
        if (l3.takeWhile Char.isDigit).isEmpty then none
        else if (l3.drop (l3.takeWhile Char.isDigit).length).head? == some '"' then
          some (l3.takeWhile Char.isDigit)
        else none

def fieldScan (key : List Char) : List Char → Option (List Char)
  | [] => none
  | c :: rest =>
    match fieldAt key (c :: rest) with
    | some ds => some ds
    | none => fieldScan key rest

/-- Model of `re.search(rf'"{k}"\s*:\s*"(\d+)"', js)` and `.group(1)`
(core.py line 95). -/
def tonerField (key js : String) : Option String :=
  (fieldScan key.toList js.toList).map String.mk

/-- Model of `re.search(r"(\d+)", s)` and `.group(1)`: the leftmost maximal digit
run (core.py line 104). -/
def firstDigitRunAux : List Char → Option (List Char)
  | [] => none
  | c :: rest =>
    if c.isDigit then some (c :: rest.takeWhile Char.isDigit)
    else firstDigitRunAux rest

def firstDigitRun (s : String) : Option String :=
  (firstDigitRunAux s.toList).map String.mk

/-! ### The document oracle

`BeautifulSoup` is an external library; a `Dom` value records exactly the
data the code extracts from the parsed document of a page body. -/

structure Dom where
  /-- Source `doc.body.get_text(" ", strip=True)`, or `""` when the document has no
  body element (core.py line 133). -/
  bodyText : String
  /-- For a colorant name: the `alt` attribute of the `img` with
  `alt=re.compile(r"\d+%")` found in the `tr` containing a `th`/`td` whose
  string matches the colorant (core.py lines 100-103); `none` when the row
  or image is absent. -/
  tonerIconAlt : String → Option String
  /-- For each `tr` of the document whose HTML matches
  `pap_m(00|04|07|10)\.gif`, in document order: the captured icon code and
  `(tr.find("th") or tr.find("td")).get_text(" ", strip=True)` for rows that
  have a label cell (core.py lines 124-127).  Rows without a matching icon
  or without a label cell are skipped. -/
  paperIconRows : List (IconCode × String)

/-- The document of the empty page body `""`: no body element, no rows. -/
def emptyDom : Dom := ⟨"", fun _ => none, []⟩

/-! ### parse_toner (core.py lines 90-106) -/

def tonerFieldKeys : List (String × String) :=
  [("tonerCVol", "Cyan"), ("tonerMVol", "Magenta"),
   ("tonerYVol", "Yellow"), ("tonerKVol", "Black")]

def tonerJsStep (js : String) (vals : SDict) (kc : String × String) : SDict :=
  match tonerField kc.1 js with
  | some ds => dset vals kc.2 ds
  | none => vals

def tonerIconStep (dom : Dom) (vals : SDict) (color : String) : SDict :=
  match (dom.tonerIconAlt color).bind (fun alt => firstDigitRun alt) with
  | some ds => dset vals color ds
  | none => vals

/-- Model of `parse_toner`: when the `tonerVolInfo` script variable is present the
function fills the fixed-key dict from its fields and returns without
consulting the document; otherwise it falls back to the icon grid. -/
def parse_toner (html : String) (dom : Dom) : SDict :=
  let vals : SDict := TONERS.map (fun c => (c, "N/A"))
  match extract_json_var "tonerVolInfo" html with
  | some js => tonerFieldKeys.foldl (tonerJsStep js) vals
  | none => TONERS.foldl (tonerIconStep dom) vals

/-! ### parse_paper (core.py lines 108-130)

`json.loads` is external; its result on a `cstInfo` payload is supplied as a
`jsonLoads` oracle returning `none` for `json.JSONDecodeError` and otherwise
the parsed value.  The payloads the code walks are a dict or list of tray
entries whose fields are JSON scalars, modelled by `JScalar`/`JTop`. -/

inductive JScalar where
  | s (v : String)
  | n (v : Int)
  | b (v : Bool)
  | null
deriving DecidableEq, Repr

abbrev JEntry := List (String × JScalar)

/-- An element of the top-level container: a tray-entry dict (walked by the
loop) or anything else (skipped by the `isinstance(entry, dict)` guard). -/
inductive JItem where
  | dict (e : JEntry)
  | other
deriving Repr

/-- The value `json.loads` returned for the whole payload. -/
inductive JTop where
  | obj (fields : List (String × JItem))
  | arr (items : List JItem)
  | other
deriving Repr

/-- Source `list(data.values()) if isinstance(data, dict) else (data if
isinstance(data, list) else [])` (core.py line 114). -/
def jtopItems : JTop → List JItem
  | .obj fields => fields.map (fun p => p.2)
  | .arr items => items
  | .other => []

/-- Python `entry.get(k, dflt)`. -/
def jget (e : JEntry) (k : String) (dflt : JScalar) : JScalar :=
  match e.find? (fun p => p.1 == k) with
  | some p => p.2
  | none => dflt

/-- Python truthiness of a JSON scalar. -/
def jfalsy : JScalar → Bool
  | .s v => v == ""
  | .n v => v == 0
  | .b v => !v
  | .null => true

/-- Python `x or 0` (core.py line 118). -/
def orZero (v : JScalar) : JScalar := if jfalsy v then .n 0 else v

/-- Python `str` of a JSON scalar. -/
def pyStrScalar : JScalar → String
  | .s v => v
  | .n v => toString v
  | .b v => if v then "True" else "False"
  | .null => "None"

/-- Python `int(s)` on a string: optional surrounding whitespace, optional
sign, one or more digits; anything else raises `ValueError`. -/
def pyIntOfStr (s : String) : Except String Int :=
  let core := (s.toList.dropWhile isSpaceChar).reverse.dropWhile isSpaceChar |>.reverse
  let signed : Option (Bool × List Char) :=
    match core with
    | '-' :: rest => some (true, rest)
    | '+' :: rest => some (false, rest)
    | rest => some (false, rest)
  match signed with
  | some (neg, ds) =>
    if !ds.isEmpty && ds.all Char.isDigit then
      let v : Int := Int.ofNat (digitsToNat (String.mk ds))
      .ok (if neg then -v else v)
    else .error ("invalid literal for int() with base 10: " ++ s)
  | none => .error ("invalid literal for int() with base 10: " ++ s)

/-- Python `int(str(v))`: for a number, Python's decimal round-trip is the
identity; for `True`/`False`/`None`, `int` of the `str` form raises. -/
def pyIntOfStrOf (v : JScalar) : Except String Int :=
  match v with
  | .n i => .ok i
  | .s str => pyIntOfStr str
  | .b bo => .error ("invalid literal for int() with base 10: " ++ pyStrScalar (.b bo))
  | .null => .error "invalid literal for int() with base 10: None"

/-- Source `bars = max(0, min(3, min(remain, 3 if total >= 3 else total)))`
(core.py line 119; app.py lines 189-190 compute the same with a named
`cap`). -/
def bars_of (remain total : Int) : Int :=
  max 0 (min 3 (min remain (if total ≥ 3 then 3 else total)))

/-- Source `BAR_MAP.get(str(bars), "N/A")` (core.py line 120). -/
def bar_label (b : Int) : String := (BAR_MAP (toString b)).getD "N/A"

/-- One iteration of the `cstInfo` entry loop (core.py lines 115-120). -/
def cstEntryStep (paper : SDict) (item : JItem) : Except String SDict :=
  match item with
  | .other => .ok paper
  | .dict e => do
    let name := _norm_tray_name (pyStrScalar (jget e "cstName" (.s "")))
    let remain ← pyIntOfStrOf (orZero (jget e "remainPapVol" (.s "0")))
    let total ← pyIntOfStrOf (orZero (jget e "totalPapVol" (.s "0")))
    let bars := bars_of remain total
    pure (if dmem paper name
      then dset paper name (bar_label bars)
      else paper)

/-- The icon-grid fallback loop (core.py lines 124-129). -/
def paperIconLoop (dom : Dom) (paper : SDict) : SDict :=
  dom.paperIconRows.foldl
    (fun paper cl =>
      let key := _norm_tray_name cl.2
      if dmem paper key then dset paper key (ICON_MAP cl.1) else paper)
    paper

/-- Model of `parse_paper`.  A present, decodable `cstInfo` returns from the
structured path; `json.JSONDecodeError` falls through to the icon loop; a
`ValueError` from `int()` is NOT caught (only `JSONDecodeError` is) and
propagates as an exception (`Except.error`). -/
def parse_paper (html : String) (dom : Dom)
    (jsonLoads : String → Option JTop) : Except String SDict :=
  let paper : SDict := DRAWERS.map (fun k => (k, "N/A"))
  match extract_json_var "cstInfo" html with
  | some js =>
    match jsonLoads js with
    | some data => (jtopItems data).foldlM cstEntryStep paper
    | none => .ok (paperIconLoop dom paper)
  | none => .ok (paperIconLoop dom paper)

/-! ### parse_explicit_errors (core.py lines 132-141)

The source runs
`re.findall(rf'[^.!?]*{error_keywords}[^.!?]*[.!?]', body_text, re.I)` with
`error_keywords = r'\b(toner|paper|jam|error|service|install|replace|no\s\w+|empty)\b'`.
Because `[^.!?]` excludes the sentence terminators, every match lies inside
one terminator-delimited segment of the text, and each segment that contains
a keyword yields exactly one match spanning the whole segment.  The pattern
contains exactly one capture group, so `re.findall` returns the captured
KEYWORD of each match, not the sentence: with the greedy leading `[^.!?]*`,
the keyword captured is the one at the rightmost word-boundary position in
the segment at which an alternative (tried in the pattern's order) matches
with a word boundary after it. -/

/-- Split at `.`/`!`/`?`; a trailing chunk with no terminator never matches
`[.!?]` and is dropped. -/
def splitSegsAux (cur : List Char) : List Char → List (List Char)
  | [] => []
  | c :: rest =>
    if c == '.' || c == '!' || c == '?' then cur.reverse :: splitSegsAux [] rest
    else splitSegsAux (c :: cur) rest

def splitSegs (l : List Char) : List (List Char) := splitSegsAux [] l

/-- Case-insensitive literal keyword at the head of `l`, requiring a word
boundary after it; returns the original-case match. -/
def tryKw (kw : List Char) (l : List Char) : Option (List Char) :=
  let pre := l.take kw.length
  if pre.length == kw.length && pre.map Char.toLower == kw then
    match l.drop kw.length with
    | [] => some pre
    | c :: _ => if isWordChar c then none else some pre
  else none

/-- The `no\s\w+` alternative: `no`, one whitespace, a maximal nonempty word
run (greedy `\w+` with the trailing `\b`). -/
def tryNoPat (l : List Char) : Option (List Char) :=
  match l with
  | a :: b :: c :: rest =>
    if a.toLower == 'n' && b.toLower == 'o' && isSpaceChar c then
      let run := rest.takeWhile isWordChar
      if run.isEmpty then none else some (a :: b :: c :: run)
    else none
  | _ => none

/-- The alternation, in the pattern's order. -/
def tryAlts (l : List Char) : Option (List Char) :=
  match tryKw ['t', 'o', 'n', 'e', 'r'] l with
  | some m => some m
  | none =>
  match tryKw ['p', 'a', 'p', 'e', 'r'] l with
  | some m => some m
  | none =>
  match tryKw ['j', 'a', 'm'] l with
  | some m => some m
  | none =>
  match tryKw ['e', 'r', 'r', 'o', 'r'] l with
  | some m => some m
  | none =>
  match tryKw ['s', 'e', 'r', 'v', 'i', 'c', 'e'] l with
  | some m => some m
  | none =>
  match tryKw ['i', 'n', 's', 't', 'a', 'l', 'l'] l with
  | some m => some m
  | none =>
  match tryKw ['r', 'e', 'p', 'l', 'a', 'c', 'e'] l with
  | some m => some m
  | none =>
  match tryNoPat l with
  | some m => some m
  | none => tryKw ['e', 'm', 'p', 't', 'y'] l

/-- The keyword captured in one segment: the match at the rightmost
word-boundary position (greedy `[^.!?]*` backtracks from the right). -/
def lastMatchAux (prevWord : Bool) (best : Option (List Char)) :
    List Char → Option (List Char)
  | [] => best
  | c :: rest =>
    let best :=
      if prevWord then best
      else
        match tryAlts (c :: rest) with
        | some m => some m
        | none => best
    lastMatchAux (isWordChar c) best rest

def segKeyword (seg : List Char) : Option (List Char) :=
  lastMatchAux false none seg

/-- Model of `parse_explicit_errors`, as a function of the extracted body text. -/
def parse_explicit_errors (bodyText : String) : List String :=
  let sentences := (splitSegs bodyText.toList).filterMap
    (fun seg => (segKeyword seg).map String.mk)
  let cleaned := (sentences.map stripStr).filter
    (fun s2 => !strIn "no error" (lowerStr s2))
  _dedupe_preserve cleaned

/-! ### derive_fallback_errors (core.py lines 143-151) -/

def tonerDeriveItem (p : String × String) : Option String :=
  if pyIsDigit p.2 && digitsToNat p.2 ≤ 10 then
    some ("The " ++ lowerStr p.1 ++ " toner is "
      ++ (if digitsToNat p.2 == 0 then "empty" else "low") ++ ".")
  else none

def paperDeriveItem (p : String × String) : Option String :=
  if strStarts (lowerStr p.1) "drawer"
      && (lowerStr p.2 == "empty" || lowerStr p.2 == "0 bar"
          || lowerStr p.2 == "no paper") then
    some (p.1 ++ " is empty.")
  else none

def derive_fallback_errors (toner paper : SDict) : List String :=
  toner.filterMap tonerDeriveItem ++ paper.filterMap paperDeriveItem

/-! ### fetch_printer_status (core.py lines 153-170) -/

def has_explicit_toner (errors : List String) : Bool :=
  errors.any (fun e => strIn "toner" (lowerStr e))

def has_explicit_paper (errors : List String) : Bool :=
  errors.any (fun e => strIn "paper" (lowerStr e) || strIn "drawer" (lowerStr e))

/-- The sentences the merge loop (core.py lines 164-168) appends to the
explicit ones. -/
def merge_appended (errors derived : List String) : List String :=
  derived.filter (fun e =>
    (strIn "toner" (lowerStr e) && !has_explicit_toner errors)
    || (strIn "drawer" (lowerStr e) && !has_explicit_paper errors))

structure Status where
  toner : SDict
  paper : SDict
  errors : List String
deriving DecidableEq, Repr

/-- Lines 158-170 of `fetch_printer_status`: everything after the page body
has been obtained. -/
def status_of_html (html : String) (dom : Dom)
    (jsonLoads : String → Option JTop) : Except String Status := do
  let toner_raw := parse_toner html dom
  let paper ← parse_paper html dom jsonLoads
  let errors := parse_explicit_errors dom.bodyText
  let errors := errors ++ merge_appended errors (derive_fallback_errors toner_raw paper)
  let toner_pct := toner_raw.map
    (fun p => (p.1, if pyIsDigit p.2 then p.2 ++ "%" else p.2))
  pure ⟨toner_pct, paper, _dedupe_preserve errors⟩

def _is_login_page (html : String) : Bool :=
  strIn "<title>Login</title>" html || strIn "name=\"login\"" html

/-- Model of `fetch_printer_status`: `html` and `dom` are the first
`fetch_best_status_html` result; when it is a login page the code runs
`login_if_needed` and refetches — `loginRefetch` is that combined outcome
(`Except.error` when a request in it raises). -/
def fetch_printer_status (html : String) (dom : Dom)
    (loginRefetch : Except String (String × Dom))
    (jsonLoads : String → Option JTop) : Except String Status :=
  if _is_login_page html then do
    let hd ← loginRefetch
    status_of_html hd.1 hd.2 jsonLoads
  else status_of_html html dom jsonLoads

/-! ### fetch_best_status_html (core.py lines 62-84)

The three candidate requests race on a thread pool; `completed` lists their
outcomes in `as_completed` order.  A raised `requests.RequestException` is
an `exn` outcome; otherwise the response carries `r.ok` and `r.text`. -/

inductive FetchOutcome where
  | exn
  | resp (ok : Bool) (body : String)

def sig_match (html : String) : Bool :=
  strIn "tonerVolInfo" html || strIn "cstInfo" html
    || strIn "Error Information" html || strIn "Consumables" html

def fetch_best_loop : List FetchOutcome → String → String
  | [], lastOk => lastOk
  | .exn :: rest, lastOk => fetch_best_loop rest lastOk
  | .resp ok body :: rest, lastOk =>
    if ok then
      if sig_match body && !_is_login_page body then body
      else fetch_best_loop rest body
    else fetch_best_loop rest lastOk

def fetch_best_status_html (completed : List FetchOutcome) : String :=
  fetch_best_loop completed ""

/-! ### collect_all (core.py lines 172-223) -/

structure Printer where
  name : String
  base_url : String
  address : Option String := none
deriving DecidableEq, Repr

/-- One output row: the dict built at core.py line 216 /
app.py lines 393-425. -/
structure Row where
  name : String
  url : String
  address : String
  errors : List String
  toner : SDict
  paper : SDict
deriving DecidableEq, Repr

/-- The row `collect_all` appends for a completed future: on success
`row.update(data)` replaces the three telemetry fields; on an exception the
initial empty dicts `"toner": {}, "paper": {}` are kept and the fetch
failure is appended to `errors` (core.py lines 216-222). -/
def collect_row (pr : Printer) (res : Except String Status) : Row :=
  match res with
  | .ok d => ⟨pr.name, pr.base_url, pr.address.getD "", d.errors, d.toner, d.paper⟩
  | .error e => ⟨pr.name, pr.base_url, pr.address.getD "", ["Failed to fetch: " ++ e], [], []⟩

/-- Model of `collect_all`: one task per printer; `outcome` is each task's
`fetch_printer_status` result (or exception); `completion` is the
`as_completed` order.  Rows are appended in completion order. -/
def collect_all (printers : List Printer)
    (outcome : Printer → Except String Status)
    (completion : List (Fin printers.length)) : List Row :=
  completion.map (fun i => collect_row (printers.get i) (outcome (printers.get i)))

/-! ### The aggregation loop of app.py main (lines 365-425)

`main` first drains `as_completed` into `results_map` keyed by
`pr.base_url`, then walks the input-ordered printer list, so its rows follow
the input order.  On a per-printer exception or a missing result it fills
the toner/paper dicts with the full fixed key sets. -/

def mapSet (m : List (String × Except String Status)) (k : String)
    (v : Except String Status) : List (String × Except String Status) :=
  if m.any (fun p => p.1 == k) then
    m.map (fun p => if p.1 == k then (k, v) else p)
  else m ++ [(k, v)]

def mapGet (m : List (String × Except String Status)) (k : String) :
    Option (Except String Status) :=
  (m.find? (fun p => p.1 == k)).map (fun p => p.2)

/-- The row `main` appends for one printer, from
`results_map.get(base, (None, "No result"))` (app.py lines 389-425). -/
def app_row (pr : Printer) (r : Option (Except String Status)) : Row :=
  match r with
  | none =>
    ⟨pr.name, pr.base_url, "", ["No result"],
      TONERS.map (fun c => (c, "N/A")), DRAWERS.map (fun d => (d, "N/A"))⟩
  | some (.error e) =>
    ⟨pr.name, pr.base_url, "", ["Failed to fetch: " ++ e],
      TONERS.map (fun c => (c, "N/A")), DRAWERS.map (fun d => (d, "N/A"))⟩
  | some (.ok d) =>
    ⟨pr.name, pr.base_url, "", d.errors,
      TONERS.map (fun c => (c, dget d.toner c "N/A")),
      DRAWERS.map (fun k => (k, dget d.paper k "N/A"))⟩

def app_main_rows (printers : List Printer)
    (outcome : Printer → Except String Status)
    (completion : List (Fin printers.length)) : List Row :=
  let rm := completion.foldl
    (fun m i => mapSet m (printers.get i).base_url (outcome (printers.get i)))
    []
  printers.map (fun pr => app_row pr (mapGet rm pr.base_url))

/-! ### The error section of the report renderer (app_html.py lines 23-29
and 187-196) -/

/-- Model of `norm_text`: replace NBSP by a space, collapse `\s+` runs to one space,
strip, lower. -/
def collapseWsAux (prevSpace : Bool) : List Char → List Char
  | [] => []
  | c :: rest =>
    if isSpaceChar c then
      if prevSpace then collapseWsAux true rest
      else ' ' :: collapseWsAux true rest
    else c :: collapseWsAux false rest

def norm_text (s : String) : String :=
  let noNbsp := s.toList.map (fun c => if c == Char.ofNat 160 then ' ' else c)
  lowerStr (stripStr (String.mk (collapseWsAux false noNbsp)))

def is_empty_text (txt : String) : Bool :=
  let t := norm_text txt
  !(t == "") && (strStarts t "0" || strIn "empty" t || strIn "no paper" t)

def HTML_DRAWERS : List String := ["Drawer 1", "Drawer 2", "Drawer 3", "Drawer 4"]

/-- The errors list `build_html` renders: per printer, a generic error
mentioning "no paper" is dropped unless some numbered drawer reads empty
(`paper.get(d)` is `None` for a missing key; `is_empty_text(None)` is
false, modelled by the `""` default). -/
def render_errors (rows : List Row) : List String :=
  rows.flatMap (fun p =>
    let drawers_empty := HTML_DRAWERS.any (fun d => is_empty_text (dget p.paper d ""))
    (p.errors.filter (fun e => !(strIn "no paper" (lowerStr e) && !drawers_empty))).map
      (fun e => p.name ++ ": " ++ e))

/-! ## Concrete inputs used by several theorems about the same run -/

/-- The page body of the C7 scenario: the embedded `tonerVolInfo` object
with fields C=5, M=50, Y=80, K=0 (and a document with no body text). -/
def html7 : String :=
  "var tonerVolInfo = \x7b\x22tonerCVol\x22:\x225\x22,\x22tonerMVol\x22:\x2250\x22,\x22tonerYVol\x22:\x2280\x22,\x22tonerKVol\x22:\x220\x22\x7d;"

def tonerAllNA : SDict := TONERS.map (fun c => (c, "N/A"))

def paperAllNA : SDict := DRAWERS.map (fun k => (k, "N/A"))

/-- The document of the C4 scenarios: visible text "No paper.", no embedded
script variables, and paper icon rows; `d2` is Drawer 2's icon code. -/
def dom4 (d2 : IconCode) : Dom :=
  ⟨"No paper.", fun _ => none,
    [(.c00, "Multi-Purpose Tray"), (.c10, "Drawer 1"), (d2, "Drawer 2"),
     (.c10, "Drawer 3"), (.c10, "Drawer 4")]⟩

/-- Is a toner value the sentinel or a percentage integer in [0,100]?  (The
range asserted by the specification.) -/
def toner_val_in_0_100 (v : String) : Bool :=
  v == "N/A" || (pyIsDigit v && digitsToNat v ≤ 100)

/-! ## Helper lemmas about the dict model -/

theorem find?_map_setfn (k2 v k : String) (h : k2 ≠ k) (d : SDict) :
    (d.map (fun p => if p.1 == k2 then (k2, v) else p)).find? (fun p => p.1 == k)
      = d.find? (fun p => p.1 == k) := by
  induction d with
  | nil => rfl
  | cons p tl ih =>
    have hk2 : (k2 == k) = false := beq_eq_false_iff_ne.mpr h
    rw [List.map_cons, List.find?_cons, List.find?_cons]
    by_cases hp : (p.1 == k2) = true
    · have h2 : (p.1 == k) = false := by rw [eq_of_beq hp]; exact hk2
      rw [if_pos hp, h2]
      show (match (k2 == k) with
        | true => some (k2, v)
        | false => (tl.map (fun p : String × String =>
            if p.1 == k2 then (k2, v) else p)).find?
              (fun p : String × String => p.1 == k)) = _
      rw [hk2]
      exact ih
    · rw [if_neg hp]
      by_cases hpk : (p.1 == k) = true
      · rw [hpk]
      · have hpf : (p.1 == k) = false := by simpa using hpk
        rw [hpf]
        exact ih

theorem find?_dset_ne (d : SDict) (k2 v k : String) (h : k2 ≠ k) :
    (dset d k2 v).find? (fun p => p.1 == k) = d.find? (fun p => p.1 == k) := by
  unfold dset
  split
  · exact find?_map_setfn k2 v k h d
  · rw [List.find?_append]
    have : ([(k2, v)] : SDict).find? (fun p => p.1 == k) = none := by
      simp [List.find?_cons, beq_eq_false_iff_ne.mpr h]
    rw [this]
    cases d.find? (fun p => p.1 == k) <;> rfl

theorem dget_dset_ne (d : SDict) (k2 v k dflt : String) (h : k2 ≠ k) :
    dget (dset d k2 v) k dflt = dget d k dflt := by
  unfold dget
  rw [find?_dset_ne d k2 v k h]

/-- Every element of `dset d k v` is `(k, v)` or an element of `d`. -/
theorem mem_dset (d : SDict) (k v : String) (p : String × String)
    (hp : p ∈ dset d k v) : p = (k, v) ∨ p ∈ d := by
  unfold dset at hp
  split at hp
  · obtain ⟨q, hq, hfq⟩ := List.mem_map.mp hp
    by_cases hqk : (q.1 == k) = true
    · left; rw [← hfq, if_pos hqk]
    · right; rw [← hfq, if_neg hqk]; exact hq
  · rcases List.mem_append.mp hp with h1 | h1
    · right; exact h1
    · left; simpa using h1

/-- Lemma: `dset` keeps every present key present. -/
theorem dmem_dset_of_dmem (d : SDict) (k v c : String) (h : dmem d c = true) :
    dmem (dset d k v) c = true := by
  unfold dmem at h ⊢
  obtain ⟨q, hq, hqc⟩ := List.any_eq_true.mp h
  unfold dset
  split
  · refine List.any_eq_true.mpr ⟨if q.1 == k then (k, v) else q, List.mem_map.mpr ⟨q, hq, rfl⟩, ?_⟩
    by_cases hqk : (q.1 == k) = true
    · rw [if_pos hqk]
      rwa [← eq_of_beq hqk]
    · rwa [if_neg hqk]
  · exact List.any_eq_true.mpr ⟨q, List.mem_append.mpr (Or.inl hq), hqc⟩

/-- A present key's `dget` value is the value of some element of the dict. -/
theorem dget_mem_of_dmem (d : SDict) (c dflt : String) (h : dmem d c = true) :
    ∃ p, p ∈ d ∧ p.1 = c ∧ dget d c dflt = p.2 := by
  unfold dmem at h
  have hfind : (d.find? (fun p => p.1 == c)).isSome = true := by
    rw [List.find?_isSome]
    obtain ⟨q, hq, hqc⟩ := List.any_eq_true.mp h
    exact ⟨q, hq, hqc⟩
  obtain ⟨p, hp⟩ := Option.isSome_iff_exists.mp hfind
  have hpc : (p.1 == c) = true := by
    have := List.find?_some hp
    simpa using this
  refine ⟨p, List.mem_of_find?_eq_some hp, eq_of_beq hpc, ?_⟩
  unfold dget
  rw [hp]

end PrinterMonitor

namespace PrinterMonitor

/-- C1 (counterexample).  The claim says the collector's output order
matches the input printer order regardless of completion order.  For
`core.py`'s `collect_all` this is false: rows are appended inside the
`as_completed` loop, so with two printers whose tasks complete in reverse
order the output is `[P2, P1]`, not `[P1, P2]`. -/
theorem C1_counterexample :
    (collect_all [⟨"P1", "http://one", none⟩, ⟨"P2", "http://two", none⟩]
        (fun _ => Except.error "down")
        [⟨1, by decide⟩, ⟨0, by decide⟩]).map Row.name = ["P2", "P1"]
    ∧ (["P2", "P1"] : List String) ≠ ["P1", "P2"] := by decide

theorem app_row_name (pr : Printer) (r : Option (Except String Status)) :
    (app_row pr r).name = pr.name := by
  cases r with
  | none => rfl
  | some res => cases res <;> rfl

theorem app_row_url (pr : Printer) (r : Option (Except String Status)) :
    (app_row pr r).url = pr.base_url := by
  cases r with
  | none => rfl
  | some res => cases res <;> rfl

/-- C1 (amended).  Both collectors emit exactly one record per configured
printer for every completion order of the per-printer tasks (`hlen` states
that each task completes once).  `app.py`'s `main` re-sequences the results
by task identity, so its row list carries the printers' names and URLs in
input order regardless of completion order; `core.py`'s `collect_all`,
by contrast, appends rows in completion order (see the counterexample). -/
theorem C1_amended (printers : List Printer) (outcome : Printer → Except String Status)
    (completion : List (Fin printers.length))
    (hlen : completion.length = printers.length) :
    (collect_all printers outcome completion).length = printers.length
    ∧ (app_main_rows printers outcome completion).map Row.name
        = printers.map Printer.name
    ∧ (app_main_rows printers outcome completion).map Row.url
        = printers.map Printer.base_url
    ∧ (app_main_rows printers outcome completion).length = printers.length := by
  refine ⟨?_, ?_, ?_, ?_⟩
  · rw [collect_all, List.length_map, hlen]
  · rw [app_main_rows, List.map_map]
    exact List.map_congr_left (fun pr _ => app_row_name pr _)
  · rw [app_main_rows, List.map_map]
    exact List.map_congr_left (fun pr _ => app_row_url pr _)
  · rw [app_main_rows, List.length_map]

/-- Witness for C1 (amended): two printers whose tasks complete in reverse
order. -/
theorem C1_amended_witness :
    (collect_all [⟨"P1", "http://one", none⟩, ⟨"P2", "http://two", none⟩]
        (fun _ => Except.error "down") [⟨1, by decide⟩, ⟨0, by decide⟩]).length = 2
    ∧ (app_main_rows [⟨"P1", "http://one", none⟩, ⟨"P2", "http://two", none⟩]
        (fun _ => Except.error "down") [⟨1, by decide⟩, ⟨0, by decide⟩]).map Row.name
        = ["P1", "P2"]
    ∧ (app_main_rows [⟨"P1", "http://one", none⟩, ⟨"P2", "http://two", none⟩]
        (fun _ => Except.error "down") [⟨1, by decide⟩, ⟨0, by decide⟩]).map Row.url
        = ["http://one", "http://two"]
    ∧ (app_main_rows [⟨"P1", "http://one", none⟩, ⟨"P2", "http://two", none⟩]
        (fun _ => Except.error "down") [⟨1, by decide⟩, ⟨0, by decide⟩]).length = 2 :=
  C1_amended [⟨"P1", "http://one", none⟩, ⟨"P2", "http://two", none⟩]
    (fun _ => Except.error "down") [⟨1, by decide⟩, ⟨0, by decide⟩] (by decide)

/-- C2 (code_bug).  A printer whose `fetch_printer_status` raises (here: the
probed page is a login page and the login replay's request raises) still
yields one row, but `collect_all` keeps the initial `"toner": {}, "paper":
{}` dicts of core.py line 216: the fixed colorant/tray key sets are absent,
contradicting the claimed invariant (which `app.py`'s `main` does maintain
by filling every key with "N/A"). -/
theorem C2_code_bug :
    collect_all [⟨"P1", "https://printer", none⟩]
        (fun _ => fetch_printer_status "<title>Login</title>" emptyDom
          (Except.error "connection refused") (fun _ => none))
        [⟨0, by decide⟩]
      = [⟨"P1", "https://printer", "", ["Failed to fetch: connection refused"], [], []⟩]
    ∧ dkeys ([] : SDict) ≠ TONERS ∧ dkeys ([] : SDict) ≠ DRAWERS := by decide

/-- C3 (code_bug).  When every candidate request raises,
`fetch_best_status_html` swallows the `requests.RequestException`s and
returns `""`; `fetch_printer_status` then parses the empty page without
raising, so the printer's row has all-"N/A" toner/paper but an EMPTY errors
list — no fetch-failure description, contradicting the claim (and app.py,
whose `login_if_needed` raises first so `main` attaches "Failed to
fetch: ..."). -/
theorem C3_code_bug :
    fetch_best_status_html [.exn, .exn, .exn] = ""
    ∧ collect_all [⟨"P1", "https://printer", none⟩]
        (fun _ => fetch_printer_status (fetch_best_status_html [.exn, .exn, .exn])
          emptyDom (Except.error "login not reached") (fun _ => none))
        [⟨0, by decide⟩]
      = [⟨"P1", "https://printer", "", [], tonerAllNA, paperAllNA⟩] := by decide

/-- C4 (counterexample).  With page text "No paper.", the multi-purpose tray
empty, Drawer 2 empty and the other drawers at three bars, the claim says a
generic no-paper sentence must appear in the record's final errors.  It does
not: core.py has no noise-suppression (or re-inclusion) logic at all — and
because `parse_explicit_errors` runs `re.findall` on a pattern with a
capture group, the final errors hold the bare keyword "paper", never a
sentence containing "no paper" (the derived "Drawer 2 is empty." is also
suppressed by the merge rule since "paper" counts as an explicit paper
error). -/
theorem C4_counterexample :
    status_of_html "<html>ok</html>" (dom4 .c00) (fun _ => none)
      = .ok ⟨tonerAllNA,
          [("Multi-Purpose Tray", "Empty"), ("Drawer 1", "3 Bar"),
           ("Drawer 2", "Empty"), ("Drawer 3", "3 Bar"), ("Drawer 4", "3 Bar")],
          ["paper"]⟩
    ∧ (["paper"].any fun e => strIn "no paper" (lowerStr e)) = false := by decide

/-- The paper readings of the C4 scenarios as record fields: multi-purpose
tray empty, all numbered drawers at three bars except Drawer 2, whose value
is `d2`. -/
def paper4 (d2 : String) : SDict :=
  [("Multi-Purpose Tray", "Empty"), ("Drawer 1", "3 Bar"), ("Drawer 2", d2),
   ("Drawer 3", "3 Bar"), ("Drawer 4", "3 Bar")]

/-- C4 (amended).  The "no paper" noise suppression lives in the HTML report
renderer (`app_html.py`, `build_html`'s error section), not in the
collector's DeviceRecord: for ANY error sentence mentioning "no paper"
(case-insensitively), the rendered error list drops it when only the
multi-purpose tray is empty and Drawers 1-4 all read three bars, and keeps
it when Drawer 2 reads empty. -/
theorem C4_amended (e : String) (he : strIn "no paper" (lowerStr e) = true) :
    render_errors [⟨"P", "u", "", [e], [], paper4 "3 Bar"⟩] = []
    ∧ render_errors [⟨"P", "u", "", [e], [], paper4 "Empty"⟩] = ["P: " ++ e] := by
  have hA : HTML_DRAWERS.any (fun d => is_empty_text (dget (paper4 "3 Bar") d "")) = false := by
    decide
  have hB : HTML_DRAWERS.any (fun d => is_empty_text (dget (paper4 "Empty") d "")) = true := by
    decide
  constructor
  · show ((([e].filter (fun e2 =>
        !(strIn "no paper" (lowerStr e2)
          && !HTML_DRAWERS.any (fun d => is_empty_text (dget (paper4 "3 Bar") d ""))))).map
        (fun e2 => "P" ++ ": " ++ e2)) ++ []) = []
    rw [hA, List.filter_cons, he]
    simp
  · show ((([e].filter (fun e2 =>
        !(strIn "no paper" (lowerStr e2)
          && !HTML_DRAWERS.any (fun d => is_empty_text (dget (paper4 "Empty") d ""))))).map
        (fun e2 => "P" ++ ": " ++ e2)) ++ []) = ["P: " ++ e]
    rw [hB, List.filter_cons, he]
    simp

/-- Witness for C4 (amended): the literal sentence "No paper.". -/
theorem C4_amended_witness :
    render_errors [⟨"P", "u", "", ["No paper."], [], paper4 "3 Bar"⟩] = []
    ∧ render_errors [⟨"P", "u", "", ["No paper."], [], paper4 "Empty"⟩]
      = ["P: " ++ "No paper."] :=
  C4_amended "No paper." (by decide)

/-- C5 (counterexample).  The toner extractor's regex `"(\d+)"` puts no
upper bound on the captured integer: a page embedding
`tonerVolInfo = {"tonerCVol":"150"}` reports Cyan as 150, outside [0,100]. -/
theorem C5_counterexample :
    dget (parse_toner
        "var tonerVolInfo = \x7b\x22tonerCVol\x22:\x22150\x22\x7d;" emptyDom)
      "Cyan" "" = "150"
    ∧ toner_val_in_0_100 "150" = false := by decide

/-- C6 (confirmed).  For non-negative `remaining`/`total` the bar ordinal is
`clamp(min(remaining, min(total, 3)), 0, 3)`, is mapped 0→"Empty",
1→"1 Bar", 2→"2 Bar", 3→"3 Bar" by `BAR_MAP`, is monotone non-decreasing in
`remaining` for fixed `total`, and never exceeds `min(total, 3)`. -/
theorem C6_bar_computation (remain total r2 : Int)
    (_h0 : 0 ≤ remain) (h1 : 0 ≤ total) (h2 : remain ≤ r2) :
    bars_of remain total = max 0 (min (min remain (min total 3)) 3)
    ∧ bar_label (bars_of remain total)
      = (if bars_of remain total = 0 then "Empty"
         else if bars_of remain total = 1 then "1 Bar"
         else if bars_of remain total = 2 then "2 Bar" else "3 Bar")
    ∧ bars_of remain total ≤ bars_of r2 total
    ∧ bars_of remain total ≤ min total 3 := by
  have hcap : (if total ≥ 3 then (3 : Int) else total) = min total 3 := by
    split_ifs with h
    · exact (min_eq_right h).symm
    · exact (min_eq_left (by omega)).symm
  have hrange : bars_of remain total = 0 ∨ bars_of remain total = 1
      ∨ bars_of remain total = 2 ∨ bars_of remain total = 3 := by
    have hlb : (0 : Int) ≤ bars_of remain total := le_max_left _ _
    have hub : bars_of remain total ≤ 3 :=
      max_le (by norm_num) (min_le_left _ _)
    omega
  refine ⟨?_, ?_, ?_, ?_⟩
  · rw [bars_of, hcap, min_comm]
  · rcases hrange with h | h | h | h <;> rw [h] <;> decide
  · unfold bars_of
    exact max_le_max le_rfl (min_le_min le_rfl (min_le_min h2 le_rfl))
  · rw [bars_of, hcap]
    exact max_le (le_min h1 (by norm_num))
      (le_trans (min_le_right _ _) (min_le_right _ _))

/-- Witness for C6: `remaining = 1`, `total = 3` (the spec's own concrete
scenario, Drawer 2 at one bar), compared against `remaining = 2`. -/
theorem C6_bar_computation_witness :
    bars_of 1 3 = max 0 (min (min 1 (min 3 3)) 3)
    ∧ bar_label (bars_of 1 3)
      = (if bars_of 1 3 = 0 then "Empty"
         else if bars_of 1 3 = 1 then "1 Bar"
         else if bars_of 1 3 = 2 then "2 Bar" else "3 Bar")
    ∧ bars_of 1 3 ≤ bars_of 2 3
    ∧ bars_of 1 3 ≤ min 3 3 :=
  C6_bar_computation 1 3 2 (by decide) (by decide) (by decide)

/-- If every pair of `pairs` whose colorant is `c` has no matching field in
`js`, the structured-path fold leaves `c`'s value unchanged. -/
theorem foldl_tonerJsStep_dget (js c dflt : String) :
    ∀ (pairs : List (String × String)) (d : SDict),
      (∀ p ∈ pairs, p.2 = c → tonerField p.1 js = none) →
      dget (pairs.foldl (tonerJsStep js) d) c dflt = dget d c dflt := by
  intro pairs
  induction pairs with
  | nil => intro d _; rfl
  | cons p tl ih =>
    intro d h
    rw [List.foldl_cons]
    have hstep : dget (tonerJsStep js d p) c dflt = dget d c dflt := by
      unfold tonerJsStep
      cases htf : tonerField p.1 js with
      | none => rfl
      | some ds =>
        have hne : p.2 ≠ c := by
          intro he
          rw [h p (List.mem_cons_self p tl) he] at htf
          exact Option.noConfusion htf
        exact dget_dset_ne d p.2 ds c dflt hne
    rw [ih (tonerJsStep js d p) (fun q hq => h q (List.mem_cons_of_mem p hq)), hstep]

/-- C10 (confirmed).  Whenever the `tonerVolInfo` script variable is present
in the page body, `parse_toner` returns from the structured path without
consulting the document (the result is the same for every `Dom`), and a
colorant whose field is absent or non-numeric in that object — i.e. whose
field regex finds no match — is reported as the sentinel "N/A" even if the
document carries an icon row for it. -/
theorem C10_structured_precedence (html : String) (dom dom2 : Dom) (js k c : String)
    (hjs : extract_json_var "tonerVolInfo" html = some js)
    (hkc : (k, c) ∈ tonerFieldKeys)
    (habsent : tonerField k js = none) :
    parse_toner html dom = parse_toner html dom2
    ∧ dget (parse_toner html dom) c "" = "N/A" := by
  constructor
  · unfold parse_toner
    rw [hjs]
  · unfold parse_toner
    rw [hjs]
    simp only [tonerFieldKeys, List.mem_cons, List.not_mem_nil, or_false] at hkc
    rcases hkc with h | h | h | h <;> (injection h with hk hc; subst hk; subst hc) <;>
      refine (foldl_tonerJsStep_dget _ _ _ _ _ ?_).trans (by decide) <;>
      (intro p hp hpc
       simp only [tonerFieldKeys, List.mem_cons, List.not_mem_nil, or_false] at hp
       rcases hp with h | h | h | h <;> subst h <;>
         first
           | exact habsent
           | exact absurd hpc (by decide))

/-- Witness for C10: a page embedding an empty `tonerVolInfo` object parses
identically with a document that has no icons and with one whose icon grid
reports Cyan 42%, and Cyan stays "N/A". -/
theorem C10_structured_precedence_witness :
    parse_toner "var tonerVolInfo = \x7b\x7d;" emptyDom
        = parse_toner "var tonerVolInfo = \x7b\x7d;" ⟨"", fun _ => some "42%", []⟩
    ∧ dget (parse_toner "var tonerVolInfo = \x7b\x7d;" emptyDom) "Cyan" "" = "N/A" :=
  C10_structured_precedence "var tonerVolInfo = \x7b\x7d;" emptyDom
    ⟨"", fun _ => some "42%", []⟩ "\x7b\x7d" "tonerCVol" "Cyan"
    (by decide) (by decide) (by decide)

/-! ## Digit-shape lemmas for the toner value sources (claim C5) -/

theorem fieldAt_digits (key l ds : List Char) (h : fieldAt key l = some ds) :
    ds ≠ [] ∧ ds.all Char.isDigit = true := by
  unfold fieldAt at h
  repeat' split at h
  all_goals try exact Option.noConfusion h
  next l3 hne _ =>
    injection h with he
    subst he
    refine ⟨?_, List.all_eq_true.mpr (fun c hc => List.mem_takeWhile_imp hc)⟩
    intro hnil
    rw [hnil] at hne
    exact hne rfl

theorem fieldScan_digits (key : List Char) :
    ∀ (l ds : List Char), fieldScan key l = some ds →
      ds ≠ [] ∧ ds.all Char.isDigit = true := by
  intro l
  induction l with
  | nil => intro ds h; exact Option.noConfusion h
  | cons c rest ih =>
    intro ds h
    unfold fieldScan at h
    cases hat : fieldAt key (c :: rest) with
    | some ds2 =>
      rw [hat] at h
      injection h with he
      rw [← he]
      exact fieldAt_digits key (c :: rest) ds2 hat
    | none =>
      rw [hat] at h
      exact ih ds h

theorem tonerField_digits (k js s : String) (h : tonerField k js = some s) :
    pyIsDigit s = true := by
  unfold tonerField at h
  obtain ⟨ds, hscan, he⟩ := Option.map_eq_some'.mp h
  subst he
  obtain ⟨hne, hall⟩ := fieldScan_digits k.toList js.toList ds hscan
  unfold pyIsDigit
  have hlist : (String.mk ds).toList = ds := rfl
  rw [hlist, hall, List.isEmpty_eq_false_iff_exists_mem.mpr ?_]
  · rfl
  · cases ds with
    | nil => exact absurd rfl hne
    | cons a l => exact ⟨a, List.mem_cons_self a l⟩

theorem firstDigitRunAux_digits :
    ∀ (l ds : List Char), firstDigitRunAux l = some ds →
      ds ≠ [] ∧ ds.all Char.isDigit = true := by
  intro l
  induction l with
  | nil => intro ds h; exact Option.noConfusion h
  | cons c rest ih =>
    intro ds h
    unfold firstDigitRunAux at h
    by_cases hc : c.isDigit = true
    · rw [if_pos hc] at h
      injection h with he
      subst he
      refine ⟨by intro hnil; exact List.noConfusion hnil, ?_⟩
      rw [List.all_cons, hc, Bool.true_and]
      exact List.all_eq_true.mpr (fun a ha => List.mem_takeWhile_imp ha)
    · rw [if_neg hc] at h
      exact ih ds h

theorem firstDigitRun_digits (s v : String) (h : firstDigitRun s = some v) :
    pyIsDigit v = true := by
  unfold firstDigitRun at h
  obtain ⟨ds, hrun, he⟩ := Option.map_eq_some'.mp h
  subst he
  obtain ⟨hne, hall⟩ := firstDigitRunAux_digits s.toList ds hrun
  unfold pyIsDigit
  have hlist : (String.mk ds).toList = ds := rfl
  rw [hlist, hall, List.isEmpty_eq_false_iff_exists_mem.mpr ?_]
  · rfl
  · cases ds with
    | nil => exact absurd rfl hne
    | cons a l => exact ⟨a, List.mem_cons_self a l⟩

/-! ## The fixed-key / sentinel-or-digits invariant of parse_toner -/

def tonerValsOk (d : SDict) : Prop :=
  ∀ p ∈ d, p.2 = "N/A" ∨ pyIsDigit p.2 = true

def tonerKeysOk (d : SDict) : Prop := ∀ c ∈ TONERS, dmem d c = true

theorem dset_valsOk (d : SDict) (k v : String)
    (hv : v = "N/A" ∨ pyIsDigit v = true) (hd : tonerValsOk d) :
    tonerValsOk (dset d k v) := by
  intro p hp
  rcases mem_dset d k v p hp with he | he
  · rw [he]
    exact hv
  · exact hd p he

theorem dset_keysOk (d : SDict) (k v : String) (hd : tonerKeysOk d) :
    tonerKeysOk (dset d k v) :=
  fun c hc => dmem_dset_of_dmem d k v c (hd c hc)

theorem foldl_tonerOk {β : Type} (step : SDict → β → SDict)
    (hstep : ∀ d b, tonerValsOk d ∧ tonerKeysOk d →
      tonerValsOk (step d b) ∧ tonerKeysOk (step d b)) :
    ∀ (l : List β) (d : SDict), tonerValsOk d ∧ tonerKeysOk d →
      tonerValsOk (l.foldl step d) ∧ tonerKeysOk (l.foldl step d) := by
  intro l
  induction l with
  | nil => intro d hd; exact hd
  | cons b rest ih =>
    intro d hd
    rw [List.foldl_cons]
    exact ih (step d b) (hstep d b hd)

theorem parse_toner_ok (html : String) (dom : Dom) :
    tonerValsOk (parse_toner html dom) ∧ tonerKeysOk (parse_toner html dom) := by
  have hlit : TONERS.map (fun c => (c, "N/A"))
      = [("Cyan", "N/A"), ("Magenta", "N/A"), ("Yellow", "N/A"), ("Black", "N/A")] := rfl
  have hinitV : tonerValsOk (TONERS.map (fun c => (c, "N/A"))) := by
    intro p hp
    rw [hlit] at hp
    simp only [List.mem_cons, List.not_mem_nil, or_false] at hp
    rcases hp with rfl | rfl | rfl | rfl <;> exact Or.inl rfl
  have hinitK : tonerKeysOk (TONERS.map (fun c => (c, "N/A"))) := by
    intro c hc
    rw [show TONERS = ["Cyan", "Magenta", "Yellow", "Black"] from rfl] at hc
    simp only [List.mem_cons, List.not_mem_nil, or_false] at hc
    rcases hc with rfl | rfl | rfl | rfl <;> decide
  unfold parse_toner
  cases hjs : extract_json_var "tonerVolInfo" html with
  | some js =>
    refine foldl_tonerOk (tonerJsStep js) ?_ tonerFieldKeys _ ⟨hinitV, hinitK⟩
    intro d b hd
    unfold tonerJsStep
    cases htf : tonerField b.1 js with
    | none => exact hd
    | some ds =>
      exact ⟨dset_valsOk d b.2 ds (Or.inr (tonerField_digits b.1 js ds htf)) hd.1,
        dset_keysOk d b.2 ds hd.2⟩
  | none =>
    refine foldl_tonerOk (tonerIconStep dom) ?_ TONERS _ ⟨hinitV, hinitK⟩
    intro d b hd
    unfold tonerIconStep
    cases halt : (dom.tonerIconAlt b).bind (fun alt => firstDigitRun alt) with
    | none => exact hd
    | some ds =>
      obtain ⟨alt, _, hrun⟩ := Option.bind_eq_some.mp halt
      exact ⟨dset_valsOk d b ds (Or.inr (firstDigitRun_digits alt ds hrun)) hd.1,
        dset_keysOk d b ds hd.2⟩

/-- C5 (amended).  For every page body, every document, and every colorant,
the toner value produced by `parse_toner` is either the sentinel "N/A" or a
string of decimal digits (a non-negative integer), with NO enforced upper
bound of 100 — the bound claimed by the spec does not hold (see the
counterexample). -/
theorem C5_amended (html : String) (dom : Dom) (c : String) (hc : c ∈ TONERS) :
    dget (parse_toner html dom) c "" = "N/A"
    ∨ pyIsDigit (dget (parse_toner html dom) c "") = true := by
  obtain ⟨hvals, hkeys⟩ := parse_toner_ok html dom
  obtain ⟨p, hpmem, _, hpv⟩ := dget_mem_of_dmem (parse_toner html dom) c "" (hkeys c hc)
  rw [hpv]
  exact hvals p hpmem

/-- Witness for C5 (amended), at the counterexample's own input: the value
150 is reported as the digit string "150". -/
theorem C5_amended_witness :
    dget (parse_toner
        "var tonerVolInfo = \x7b\x22tonerCVol\x22:\x22150\x22\x7d;" emptyDom)
      "Cyan" "" = "N/A"
    ∨ pyIsDigit (dget (parse_toner
        "var tonerVolInfo = \x7b\x22tonerCVol\x22:\x22150\x22\x7d;" emptyDom)
      "Cyan" "") = true :=
  C5_amended "var tonerVolInfo = \x7b\x22tonerCVol\x22:\x22150\x22\x7d;"
    emptyDom "Cyan" (by decide)

/-! ## Claim C8: the merge rule of the error synthesizer -/

theorem sdict_keys4 (d : SDict) (h : dkeys d = TONERS) :
    ∃ v1 v2 v3 v4,
      d = [("Cyan", v1), ("Magenta", v2), ("Yellow", v3), ("Black", v4)] := by
  rcases d with _ | ⟨⟨k1, v1⟩, _ | ⟨⟨k2, v2⟩, _ | ⟨⟨k3, v3⟩, _ | ⟨⟨k4, v4⟩, _ | ⟨⟨k5, v5⟩, t5⟩⟩⟩⟩⟩
  · exact absurd h (by simp [dkeys, TONERS])
  · exact absurd h (by simp [dkeys, TONERS])
  · exact absurd h (by simp [dkeys, TONERS])
  · exact absurd h (by simp [dkeys, TONERS])
  · simp only [dkeys, List.map_cons, List.map_nil, TONERS, List.cons.injEq, and_true] at h
    obtain ⟨rfl, rfl, rfl, rfl⟩ := h
    exact ⟨v1, v2, v3, v4, rfl⟩
  · exact absurd h (by simp [dkeys, TONERS])

theorem sdict_keys5 (d : SDict) (h : dkeys d = DRAWERS) :
    ∃ v0 v1 v2 v3 v4,
      d = [("Multi-Purpose Tray", v0), ("Drawer 1", v1), ("Drawer 2", v2),
           ("Drawer 3", v3), ("Drawer 4", v4)] := by
  rcases d with _ | ⟨⟨k1, v1⟩, _ | ⟨⟨k2, v2⟩, _ | ⟨⟨k3, v3⟩,
    _ | ⟨⟨k4, v4⟩, _ | ⟨⟨k5, v5⟩, _ | ⟨⟨k6, v6⟩, t6⟩⟩⟩⟩⟩⟩
  · exact absurd h (by simp [dkeys, DRAWERS])
  · exact absurd h (by simp [dkeys, DRAWERS])
  · exact absurd h (by simp [dkeys, DRAWERS])
  · exact absurd h (by simp [dkeys, DRAWERS])
  · exact absurd h (by simp [dkeys, DRAWERS])
  · simp only [dkeys, List.map_cons, List.map_nil, DRAWERS, List.cons.injEq, and_true] at h
    obtain ⟨rfl, rfl, rfl, rfl, rfl⟩ := h
    exact ⟨v1, v2, v3, v4, v5, rfl⟩
  · exact absurd h (by simp [dkeys, DRAWERS])

/-- When the toner/paper dicts carry the canonical key lists, every derived
sentence is one of twelve concrete strings. -/
theorem derive_mem_shape (toner paper : SDict) (hT : dkeys toner = TONERS)
    (hP : dkeys paper = DRAWERS) (d : String)
    (hd : d ∈ derive_fallback_errors toner paper) :
    d ∈ ["The cyan toner is low.", "The cyan toner is empty.",
         "The magenta toner is low.", "The magenta toner is empty.",
         "The yellow toner is low.", "The yellow toner is empty.",
         "The black toner is low.", "The black toner is empty.",
         "Drawer 1 is empty.", "Drawer 2 is empty.",
         "Drawer 3 is empty.", "Drawer 4 is empty."] := by
  obtain ⟨v1, v2, v3, v4, rfl⟩ := sdict_keys4 toner hT
  obtain ⟨w0, w1, w2, w3, w4, rfl⟩ := sdict_keys5 paper hP
  unfold derive_fallback_errors at hd
  rcases List.mem_append.mp hd with hmem | hmem
  · obtain ⟨p, hp, hfp⟩ := List.mem_filterMap.mp hmem
    simp only [List.mem_cons, List.not_mem_nil, or_false] at hp
    rcases hp with rfl | rfl | rfl | rfl <;>
      (unfold tonerDeriveItem at hfp
       dsimp only at hfp
       split_ifs at hfp <;>
         first
           | exact Option.noConfusion hfp
           | (injection hfp with he; rw [← he]; decide))
  · obtain ⟨p, hp, hfp⟩ := List.mem_filterMap.mp hmem
    simp only [List.mem_cons, List.not_mem_nil, or_false] at hp
    rcases hp with rfl | rfl | rfl | rfl | rfl <;>
      (unfold paperDeriveItem at hfp
       dsimp only at hfp
       split_ifs at hfp with hcond
       all_goals first
         | exact Option.noConfusion hfp
         | (injection hfp with he; rw [← he]; decide)
         | (rw [show strStarts (lowerStr "Multi-Purpose Tray") "drawer" = false from
               by decide, Bool.false_and] at hcond
            exact Bool.noConfusion hcond))

theorem mem_merge_appended_iff_toner (E derived : List String) (d : String)
    (hd : d ∈ derived) (ht : strIn "toner" (lowerStr d) = true)
    (hp : strIn "drawer" (lowerStr d) = false) :
    d ∈ merge_appended E derived ↔ has_explicit_toner E = false := by
  unfold merge_appended
  rw [List.mem_filter]
  constructor
  · rintro ⟨-, hpred⟩
    rw [ht, hp, Bool.false_and, Bool.or_false, Bool.true_and, Bool.not_eq_true'] at hpred
    exact hpred
  · intro hfalse
    refine ⟨hd, ?_⟩
    rw [ht, hp, Bool.false_and, Bool.or_false, Bool.true_and, hfalse]
    rfl

theorem mem_merge_appended_iff_drawer (E derived : List String) (d : String)
    (hd : d ∈ derived) (ht : strIn "toner" (lowerStr d) = false)
    (hp : strIn "drawer" (lowerStr d) = true) :
    d ∈ merge_appended E derived ↔ has_explicit_paper E = false := by
  unfold merge_appended
  rw [List.mem_filter]
  constructor
  · rintro ⟨-, hpred⟩
    rw [ht, hp, Bool.false_and, Bool.false_or, Bool.true_and, Bool.not_eq_true'] at hpred
    exact hpred
  · intro hfalse
    refine ⟨hd, ?_⟩
    rw [ht, hp, Bool.false_and, Bool.false_or, Bool.true_and, hfalse]
    rfl

/-- C8 (confirmed).  For toner/paper dicts carrying the canonical key lists
(the shapes `parse_toner`/`parse_paper` always produce) and ANY explicit
sentence list: every derived sentence mentions exactly one subsystem
("toner" or "drawer", case-insensitive substrings), and it is appended by
the merge loop of `fetch_printer_status` if and only if no explicit sentence
about that same subsystem exists (paper-subsystem presence meaning an
explicit sentence containing "paper" or "drawer"). -/
theorem C8_merge (toner paper : SDict) (hT : dkeys toner = TONERS)
    (hP : dkeys paper = DRAWERS) (explicitE : List String) (d : String)
    (hd : d ∈ derive_fallback_errors toner paper) :
    ((strIn "toner" (lowerStr d) = true ∧ strIn "drawer" (lowerStr d) = false)
      ∨ (strIn "drawer" (lowerStr d) = true ∧ strIn "toner" (lowerStr d) = false))
    ∧ (strIn "toner" (lowerStr d) = true →
        (d ∈ merge_appended explicitE (derive_fallback_errors toner paper)
          ↔ has_explicit_toner explicitE = false))
    ∧ (strIn "drawer" (lowerStr d) = true →
        (d ∈ merge_appended explicitE (derive_fallback_errors toner paper)
          ↔ has_explicit_paper explicitE = false)) := by
  have hshape := derive_mem_shape toner paper hT hP d hd
  fin_cases hshape <;>
    first
      | exact ⟨by decide,
          fun _ => mem_merge_appended_iff_toner explicitE _ _ hd (by decide) (by decide),
          fun hdr => absurd hdr (by decide)⟩
      | exact ⟨by decide,
          fun ht => absurd ht (by decide),
          fun _ => mem_merge_appended_iff_drawer explicitE _ _ hd (by decide) (by decide)⟩

/-- Witness for C8: Cyan at 5% derives "The cyan toner is low.", which with
no explicit sentences is appended (`has_explicit_toner [] = false`). -/
theorem C8_merge_witness :
    ("The cyan toner is low." ∈ merge_appended []
        (derive_fallback_errors
          [("Cyan", "5"), ("Magenta", "50"), ("Yellow", "80"), ("Black", "50")]
          [("Multi-Purpose Tray", "N/A"), ("Drawer 1", "3 Bar"), ("Drawer 2", "3 Bar"),
           ("Drawer 3", "3 Bar"), ("Drawer 4", "3 Bar")]))
      ↔ has_explicit_toner [] = false :=
  (C8_merge
    [("Cyan", "5"), ("Magenta", "50"), ("Yellow", "80"), ("Black", "50")]
    [("Multi-Purpose Tray", "N/A"), ("Drawer 1", "3 Bar"), ("Drawer 2", "3 Bar"),
     ("Drawer 3", "3 Bar"), ("Drawer 4", "3 Bar")]
    (by decide) (by decide) [] "The cyan toner is low." (by decide)).2.1 (by decide)

/-! ## Claim C9: the endpoint-probe fallback chain -/

/-- A completed candidate wins the race: 2xx, carries a telemetry
signature, and is not a login page (core.py line 82). -/
def outcome_match : FetchOutcome → Bool
  | .exn => false
  | .resp ok body => ok && (sig_match body && !_is_login_page body)

def outcome_ok : FetchOutcome → Bool
  | .exn => false
  | .resp ok _ => ok

def body_of : FetchOutcome → String
  | .exn => ""
  | .resp _ b => b

theorem fetch_best_loop_char (l : List FetchOutcome) : ∀ lastOk : String,
    (match l.find? outcome_match with
      | some o => fetch_best_loop l lastOk = body_of o
      | none => fetch_best_loop l lastOk
          = ((l.filter outcome_ok).map body_of).getLastD lastOk) := by
  induction l with
  | nil => intro lastOk; rfl
  | cons o rest ih =>
    intro lastOk
    cases o with
    | exn =>
      have hf : (FetchOutcome.exn :: rest).find? outcome_match
          = rest.find? outcome_match := rfl
      have h2 : (FetchOutcome.exn :: rest).filter outcome_ok
          = rest.filter outcome_ok := rfl
      rw [hf, h2]
      exact ih lastOk
    | resp ok body =>
      by_cases hm : (ok && (sig_match body && !_is_login_page body)) = true
      · have hmm2 : outcome_match (.resp ok body) = true := hm
        have hf : (FetchOutcome.resp ok body :: rest).find? outcome_match
            = some (.resp ok body) := by
          rw [List.find?_cons, hmm2]
        rw [hf]
        have hok : ok = true := by revert hm; cases ok <;> simp
        have hsig : (sig_match body && !_is_login_page body) = true := by
          revert hm; cases ok <;> simp
        show fetch_best_loop (FetchOutcome.resp ok body :: rest) lastOk = body
        subst hok
        simp [fetch_best_loop, hsig]
      · have hmf : outcome_match (.resp ok body) = false := by
          revert hm
          cases hx : (ok && (sig_match body && !_is_login_page body)) <;> simp [outcome_match, hx]
        have hf : (FetchOutcome.resp ok body :: rest).find? outcome_match
            = rest.find? outcome_match := by
          rw [List.find?_cons, hmf]
        rw [hf]
        cases hok : ok with
        | true =>
          have hsigf : (sig_match body && !_is_login_page body) = false := by
            revert hm
            rw [hok]
            cases hx : (sig_match body && !_is_login_page body) <;> simp [hx]
          have h1 : fetch_best_loop (FetchOutcome.resp true body :: rest) lastOk
              = fetch_best_loop rest body := by
            simp [fetch_best_loop, hsigf]
          have h2 : (FetchOutcome.resp true body :: rest).filter outcome_ok
              = FetchOutcome.resp true body :: rest.filter outcome_ok := rfl
          rw [h1, h2]
          have hbody := ih body
          cases hfr : rest.find? outcome_match with
          | some o2 =>
            rw [hfr] at hbody
            exact hbody
          | none =>
            rw [hfr] at hbody
            show fetch_best_loop rest body
                = ((FetchOutcome.resp true body :: rest.filter outcome_ok).map
                    body_of).getLastD lastOk
            rw [List.map_cons, List.getLastD_cons]
            exact hbody
        | false =>
          have h1 : fetch_best_loop (FetchOutcome.resp false body :: rest) lastOk
              = fetch_best_loop rest lastOk := rfl
          have h2 : (FetchOutcome.resp false body :: rest).filter outcome_ok
              = rest.filter outcome_ok := rfl
          rw [h1, h2]
          exact ih lastOk

/-- C9 (amended).  In completion order: the first 2xx response whose body
carries a telemetry signature AND is not a login page is returned; when no
candidate matches, the last 2xx body observed is returned, and `""` when no
candidate succeeded at all.  The caller (`fetch_printer_status`) then parses
the empty body into an all-"N/A" reading WITHOUT raising — but the errors
list it produces is empty: no "no telemetry found" description is attached
(contrary to the original claim; see the counterexample). -/
theorem C9_amended (completed : List FetchOutcome)
    (jsonLoads : String → Option JTop) :
    (match completed.find? outcome_match with
      | some o => fetch_best_status_html completed = body_of o
      | none => fetch_best_status_html completed
          = ((completed.filter outcome_ok).map body_of).getLastD "")
    ∧ status_of_html "" emptyDom jsonLoads
        = .ok ⟨TONERS.map (fun c => (c, "N/A")), DRAWERS.map (fun k => (k, "N/A")), []⟩ :=
  ⟨fetch_best_loop_char completed "", rfl⟩

/-- C9 (counterexample).  When every candidate raises, the probe returns the
empty body and the caller yields all-"N/A" telemetry with an EMPTY errors
list — no descriptive "no telemetry found" error is produced, contradicting
the claim's final clause. -/
theorem C9_counterexample :
    fetch_best_status_html [.exn, .exn, .exn] = ""
    ∧ status_of_html "" emptyDom (fun _ => none)
        = .ok ⟨TONERS.map (fun c => (c, "N/A")), DRAWERS.map (fun k => (k, "N/A")), []⟩
    ∧ ¬∃ e : String, e ∈ (Status.errors
        ⟨TONERS.map (fun c => (c, "N/A")), DRAWERS.map (fun k => (k, "N/A")), []⟩) := by
  refine ⟨rfl, rfl, ?_⟩
  rintro ⟨e, he⟩
  exact List.not_mem_nil e he

/-- C7 (counterexample).  On the claimed scenario the derived sentences are
capitalized "The cyan toner is low." / "The black toner is empty."
(core.py line 147), so the claimed lowercase sentences fail the claim's
exact string equality. -/
theorem C7_counterexample :
    status_of_html html7 emptyDom (fun _ => none)
      = .ok ⟨[("Cyan", "5%"), ("Magenta", "50%"), ("Yellow", "80%"), ("Black", "0%")],
          paperAllNA, ["The cyan toner is low.", "The black toner is empty."]⟩
    ∧ "the cyan toner is low."
        ∉ ["The cyan toner is low.", "The black toner is empty."]
    ∧ "the black toner is empty."
        ∉ ["The cyan toner is low.", "The black toner is empty."] := by decide

/-- C7 (amended).  The scenario's toner mapping is `{Cyan: "5%", Magenta:
"50%", Yellow: "80%", Black: "0%"}` and the final errors are exactly the
derived sentences "The cyan toner is low." and "The black toner is empty."
(capitalized as the code emits them). -/
theorem C7_amended :
    status_of_html html7 emptyDom (fun _ => none)
      = .ok ⟨[("Cyan", "5%"), ("Magenta", "50%"), ("Yellow", "80%"), ("Black", "0%")],
          paperAllNA, ["The cyan toner is low.", "The black toner is empty."]⟩
    ∧ "The cyan toner is low."
        ∈ ["The cyan toner is low.", "The black toner is empty."]
    ∧ "The black toner is empty."
        ∈ ["The cyan toner is low.", "The black toner is empty."] := by decide

end PrinterMonitor
